import Mathlib

/-!
Verification of the RIVION client-side face-detection-and-capture loop
(`FaceCaptureComponent`). The component is embedded as pure functions and an
explicit event-step state machine:

* `classifyQuality` / `facePercentage` — the quality heuristic computed inside
  the detection poll (source lines 124–135).
* `detectFacesUpdate` — the state update performed by one completed detection
  poll `detectFaces` (source lines 105–145): the quality label is written once
  per detected face in a `forEach` traversal (last write wins, and it is not
  written at all when the detection result is empty), then `facesCount` and
  `faceDetected` are set from the result length; a thrown detection error is
  caught and leaves all state untouched.
* `handleCapture` — the user-triggered still capture (source lines 159–185).
* `step` / `runState` / `runOutputs` — the component lifecycle: model loading,
  camera acquisition, the 100 ms `setInterval` poll timer, asynchronous poll
  completion, capture, and unmount cleanup (effect teardown).
-/

/-- A detected face's bounding box (`detection.detection.box`). -/
structure FaceBox where
  width : ℚ
  height : ℚ
deriving DecidableEq, Repr

/-- One face record as produced by `detectAllFaces(...).withFaceLandmarks()
.withFaceExpressions().withAgeAndGender()`. The poll destructures `age`,
`gender`, `genderProbability` and `expressions` and computes a dominant
expression, but none of those feed any state update (the dominant expression
is computed and discarded); only the bounding box does, via the quality
heuristic. -/
structure FaceRecord where
  box : FaceBox
  expressions : List (String × ℚ)
  age : ℚ
  gender : String
  genderProbability : ℚ
deriving DecidableEq, Repr

/-- `facePercentage = (box.width * box.height) / (canvas.width * canvas.height) * 100`
where the canvas dimensions are set to the video's native dimensions
(source lines 97–98, 124–127). `resizeResults` maps detections to
`{width: video.videoWidth, height: video.videoHeight}`, the same dimensions
the canvas was just given, so boxes are taken as-is. -/
def facePercentage (videoW videoH : ℚ) (r : FaceRecord) : ℚ :=
  r.box.width * r.box.height / (videoW * videoH) * 100

/-- The quality classification (source lines 129–135):
`if (facePercentage > 15 && facePercentage < 80)` → good positioning,
`else if (facePercentage <= 15)` → move closer, `else` → move back. -/
def classifyQuality (p : ℚ) : String :=
  if 15 < p ∧ p < 80 then "✅ Good positioning"
  else if p ≤ 15 then "📏 Move closer to camera"
  else "📏 Move back from camera"

/-- The component's per-poll detection view state: the `faceDetected`,
`facesCount` and `faceQuality` `useState` hooks. -/
structure ViewState where
  faceDetected : Bool
  facesCount : Nat
  faceQuality : String
deriving DecidableEq, Repr

/-- Initial values of the hooks: `useState(false)`, `useState(0)`,
`useState('')`. -/
def initView : ViewState :=
  { faceDetected := false, facesCount := 0, faceQuality := "" }

/-- State update of one completed `detectFaces` poll (source lines 105–145).
On a thrown detection error the `catch` only logs, so state is unchanged.
On a returned result: when it is non-empty, `setFaceQuality` is called once
per face inside `resizedDetections.forEach` (modelled as a fold whose last
write survives); when it is empty the `forEach` block is skipped entirely and
`faceQuality` keeps its previous value. In both cases `setFacesCount` and
`setFaceDetected` are then applied from the result length (lines 140–141). -/
def detectFacesUpdate (s : ViewState) (videoW videoH : ℚ)
    (res : Except Unit (List FaceRecord)) : ViewState :=
  match res with
  | Except.error _ => s
  | Except.ok detections =>
      let quality := detections.foldl
        (fun _ d => classifyQuality (facePercentage videoW videoH d)) s.faceQuality
      { faceDetected := decide (0 < detections.length)
        facesCount := detections.length
        faceQuality := quality }

/-- Outcome of a `handleCapture` call. -/
inductive CaptureResult where
  | noFaceDetected
  | noVideoRef
  | encodingError
  | captured (img : String)
deriving DecidableEq, Repr

/-- The capture operation (source lines 159–185). Guard: `if (!faceDetected)`
→ alert and return; `if (!videoRef.current)` → return. Then the frame is drawn
to an offscreen canvas and encoded (`toDataURL('image/jpeg', 0.95)`), which may
throw (`enc = error`): the `catch` alerts and `onCapture` is not called. On
success `onCapture(base64Image)` is called exactly once. The second component
is the list of `onCapture` invocations made by this call. -/
def handleCapture (faceDetected videoRefPresent : Bool)
    (enc : Except Unit String) : CaptureResult × List String :=
  if !faceDetected then (CaptureResult.noFaceDetected, [])
  else if !videoRefPresent then (CaptureResult.noVideoRef, [])
  else
    match enc with
    | Except.ok img => (CaptureResult.captured img, [img])
    | Except.error _ => (CaptureResult.encodingError, [])

/-- Output visible to the caller or the user during one step: a browser
`alert(...)` or an `onCapture(...)` invocation. -/
inductive Output where
  | alerted (msg : String)
  | captureCall (img : String)
deriving DecidableEq, Repr

/-- The component's full state surface: the five `useState` hooks
(`modelsLoaded`, `isStreaming` and the three view hooks), the
`detectionIntervalRef` timer handle, whether `videoRef.current` is still
attached (it is nulled when the component unmounts), the stream attached as
`videoRef.current.srcObject`, and book-keeping of the environment's camera
streams: which stream handles `getUserMedia` has yielded and which have had
their tracks stopped. `timerEverStarted` records whether `setInterval` was
ever called, and `pendingDetections` the ids of `detectFaces` calls whose
asynchronous `detectAllFaces` has not yet returned. -/
structure CompState where
  modelsLoaded : Bool
  isStreaming : Bool
  view : ViewState
  intervalActive : Bool
  timerEverStarted : Bool
  videoRefPresent : Bool
  srcObject : Option Nat
  cameraRequested : Bool
  acquiredStreams : List Nat
  stoppedStreams : List Nat
  pendingDetections : List Nat
deriving DecidableEq, Repr

/-- State at mount: all hooks at their `useState` initial values, no timer,
refs attached, no stream, camera not yet requested (the model-loading effect
has started `loadModels()`). -/
def initState : CompState :=
  { modelsLoaded := false, isStreaming := false, view := initView
    intervalActive := false, timerEverStarted := false
    videoRefPresent := true, srcObject := none, cameraRequested := false
    acquiredStreams := [], stoppedStreams := [], pendingDetections := [] }

/-- Asynchronous events driving the component:
* `modelLoadResolve ok` — the `Promise.all` of model loads settles (lines
  22–35): success sets `modelsLoaded` and the camera effect then calls
  `getUserMedia`; failure alerts and nothing progresses.
* `getUserMediaResolve res` — the camera request settles (lines 46–65):
  denial alerts; success yields a stream handle, which is attached and played
  only if `videoRef.current` still exists, and then (with models loaded and
  `isStreaming` now true) the detection effect starts the 100 ms interval.
* `tick pollId` — one `setInterval` firing (line 149): it invokes
  `detectFaces` unconditionally, which early-returns when refs are gone and
  otherwise starts an asynchronous detection.
* `detectionComplete pollId w h res` — that detection settles (lines 90–145)
  with the video dimensions read at that point, applying `detectFacesUpdate`.
* `capture enc` — the user clicks capture (`handleCapture`, lines 159–185).
* `unmount` — React teardown: the detection effect cleanup clears the
  interval (lines 151–155), the camera effect cleanup stops the tracks of
  `videoRef.current.srcObject` when present (lines 70–75), and the refs are
  detached. -/
inductive Event where
  | modelLoadResolve (ok : Bool)
  | getUserMediaResolve (res : Except Unit Nat)
  | tick (pollId : Nat)
  | detectionComplete (pollId : Nat) (videoW videoH : ℚ) (res : Except Unit (List FaceRecord))
  | capture (enc : Except Unit String)
  | unmount

/-- One event-step of the component, returning the new state and the outputs
(alerts, `onCapture` calls) emitted during the step. Translated branch by
branch from the source; in particular a stream resolved after the refs are
gone (post-unmount) is acquired but never attached and never stopped, and a
`tick` starts a new detection regardless of `pendingDetections`. -/
def step (s : CompState) (e : Event) : CompState × List Output :=
  match e with
  | Event.modelLoadResolve ok =>
      if ok then
        ({ s with modelsLoaded := true, cameraRequested := true }, [])
      else
        (s, [Output.alerted "Failed to load face detection models. Please refresh the page."])
  | Event.getUserMediaResolve res =>
      match res with
      | Except.error _ =>
          (s, [Output.alerted "Please allow camera access to use this app."])
      | Except.ok streamId =>
          let s1 := { s with acquiredStreams := streamId :: s.acquiredStreams }
          if s1.videoRefPresent then
            ({ s1 with
                srcObject := some streamId
                isStreaming := true
                intervalActive := s1.intervalActive || s1.modelsLoaded
                timerEverStarted := s1.timerEverStarted || s1.modelsLoaded }, [])
          else
            (s1, [])
  | Event.tick pollId =>
      if s.intervalActive && s.videoRefPresent then
        ({ s with pendingDetections := pollId :: s.pendingDetections }, [])
      else
        (s, [])
  | Event.detectionComplete pollId videoW videoH res =>
      if pollId ∈ s.pendingDetections then
        ({ s with
            pendingDetections := s.pendingDetections.erase pollId
            view := detectFacesUpdate s.view videoW videoH res }, [])
      else
        (s, [])
  | Event.capture enc =>
      (s, ((handleCapture s.view.faceDetected s.videoRefPresent enc).2).map Output.captureCall)
  | Event.unmount =>
      match s.srcObject with
      | some streamId =>
          if s.videoRefPresent then
            ({ s with
                intervalActive := false
                isStreaming := false
                stoppedStreams := streamId :: s.stoppedStreams
                videoRefPresent := false }, [])
          else
            ({ s with intervalActive := false, videoRefPresent := false }, [])
      | none =>
          ({ s with intervalActive := false, videoRefPresent := false }, [])

/-- Run a sequence of events from a state. -/
def runState (s : CompState) : List Event → CompState
  | [] => s
  | e :: es => runState (step s e).1 es

/-- The outputs emitted while running a sequence of events. -/
def runOutputs (s : CompState) : List Event → List Output
  | [] => []
  | e :: es => (step s e).2 ++ runOutputs (step s e).1 es

/-- Concrete face on a 100×100 frame filling 25% of it (classified as good
positioning). -/
def faceLarge : FaceRecord :=
  { box := { width := 50, height := 50 }, expressions := [("happy", 9/10)]
    age := 30, gender := "male", genderProbability := 9/10 }

/-- Concrete face on a 100×100 frame filling 4% of it (classified as move
closer). -/
def faceSmall : FaceRecord :=
  { box := { width := 20, height := 20 }, expressions := [("sad", 8/10)]
    age := 25, gender := "female", genderProbability := 8/10 }

/-- A fold that ignores its accumulator keeps only the last element's image. -/
theorem foldl_const_apply_last {α β : Type} (f : α → β) :
    ∀ (l : List α) (hl : l ≠ []) (b : β),
      l.foldl (fun _ d => f d) b = f (l.getLast hl)
  | [a], _, _ => rfl
  | _ :: y :: t, _, b => by
    rw [List.foldl_cons, List.getLast_cons (List.cons_ne_nil y t)]
    exact foldl_const_apply_last f (y :: t) (List.cons_ne_nil y t) _

/-- C1: if no face was detected in the most recent poll, capture fails with
the no-face error and `onCapture` is never invoked; if a face was detected and
encoding succeeds, `onCapture` is invoked exactly once with the encoded image;
and `onCapture` is invoked only on the success path — on every failure path
the invocation list is empty. -/
theorem C1_capture_contract (fd vp : Bool) (enc : Except Unit String) :
    (fd = false → handleCapture fd vp enc = (CaptureResult.noFaceDetected, [])) ∧
    (∀ img, fd = true → vp = true → enc = Except.ok img →
        handleCapture fd vp enc = (CaptureResult.captured img, [img])) ∧
    ((handleCapture fd vp enc).2 ≠ [] →
        ∃ img, handleCapture fd vp enc = (CaptureResult.captured img, [img])) := by
  refine ⟨?_, ?_, ?_⟩
  · rintro rfl; rfl
  · rintro img rfl rfl rfl; rfl
  · cases fd
    · intro hne; exact absurd rfl hne
    · cases vp
      · intro hne; exact absurd rfl hne
      · cases enc with
        | error e => intro hne; exact absurd rfl hne
        | ok img => intro _; exact ⟨img, rfl⟩

/-- C1 witness: with a face detected, the video ref attached and a successful
encoding, capture yields the image and exactly one `onCapture` call. -/
theorem C1_capture_contract_witness :
    handleCapture true true (Except.ok "imgdata") =
      (CaptureResult.captured "imgdata", ["imgdata"]) :=
  (C1_capture_contract true true (Except.ok "imgdata")).2.1 "imgdata" rfl rfl rfl

/-- C2: after a completed detection poll, `faceDetected` equals whether the
poll's detection result is non-empty — false exactly on an empty result, true
exactly on one or more face records. -/
theorem C2_faceDetected_tracks_result (s : ViewState) (w h : ℚ)
    (l : List FaceRecord) :
    (detectFacesUpdate s w h (Except.ok l)).faceDetected = decide (0 < l.length) :=
  rfl

/-- C3 counterexample: at facePercentage exactly 15.0 the code classifies
"move closer to camera", not "good positioning" as the claim states — the
good-positioning branch requires facePercentage strictly greater than 15. -/
theorem C3_boundary_counterexample :
    classifyQuality 15 = "📏 Move closer to camera" ∧
    classifyQuality 15 ≠ "✅ Good positioning" := by
  have h : classifyQuality 15 = "📏 Move closer to camera" := by
    norm_num [classifyQuality]
  exact ⟨h, by rw [h]; decide⟩

/-- C3 amended: the quality classification is a pure function of
facePercentage with boundaries f(14.9) = move closer, f(15.0) = move closer
(15.0 is inclusive on the move-closer side; good positioning requires
strictly more than 15), f(79.9) = good positioning, f(80.0) = move back. -/
theorem C3_quality_boundaries :
    classifyQuality (14.9 : ℚ) = "📏 Move closer to camera" ∧
    classifyQuality (15 : ℚ) = "📏 Move closer to camera" ∧
    classifyQuality (79.9 : ℚ) = "✅ Good positioning" ∧
    classifyQuality (80 : ℚ) = "📏 Move back from camera" := by
  refine ⟨?_, ?_, ?_, ?_⟩ <;> norm_num [classifyQuality]

/-- C7: a capture call — successful or not — leaves the component state
unchanged: the whole state, and in particular `faceDetected`, `facesCount`,
`faceQuality`, the poll timer and the attached stream handle, are identical
before and after, so polling continues unaffected. -/
theorem C7_capture_preserves_state (s : CompState) (enc : Except Unit String) :
    (step s (Event.capture enc)).1 = s ∧
    (step s (Event.capture enc)).1.view = s.view ∧
    (step s (Event.capture enc)).1.intervalActive = s.intervalActive ∧
    (step s (Event.capture enc)).1.srcObject = s.srcObject ∧
    (step s (Event.capture enc)).1.pendingDetections = s.pendingDetections :=
  ⟨rfl, rfl, rfl, rfl, rfl⟩

/-- C8 counterexample: with two faces in the result — the first classifying
as good positioning, the second as move closer — the poll's surviving quality
label is the second (last) face's, so the feedback does not reflect the
first/primary face. -/
theorem C8_last_face_counterexample :
    (detectFacesUpdate initView 100 100
        (Except.ok [faceLarge, faceSmall])).faceQuality
      = "📏 Move closer to camera" ∧
    classifyQuality (facePercentage 100 100 faceLarge) = "✅ Good positioning" := by
  constructor
  · norm_num [detectFacesUpdate, classifyQuality, facePercentage, faceLarge,
      faceSmall, initView]
  · norm_num [classifyQuality, facePercentage, faceLarge]

/-- C8 amended: on a poll with a non-empty detection result, the surviving
quality feedback is the classification of the LAST face record of the
sequence (each iteration of the traversal overwrites the label, so the last
write wins), not the first. -/
theorem C8_quality_reflects_last_face (s : ViewState) (w h : ℚ)
    (l : List FaceRecord) (hl : l ≠ []) :
    (detectFacesUpdate s w h (Except.ok l)).faceQuality
      = classifyQuality (facePercentage w h (l.getLast hl)) :=
  foldl_const_apply_last (fun d => classifyQuality (facePercentage w h d)) l hl
    s.faceQuality

/-- C8 witness: on the concrete two-face poll the quality label equals the
classification of the last face of the sequence. -/
theorem C8_quality_reflects_last_face_witness :
    (detectFacesUpdate initView 100 100
        (Except.ok [faceLarge, faceSmall])).faceQuality
      = classifyQuality (facePercentage 100 100
          ([faceLarge, faceSmall].getLast (List.cons_ne_nil faceLarge [faceSmall]))) :=
  C8_quality_reflects_last_face initView 100 100 [faceLarge, faceSmall]
    (List.cons_ne_nil faceLarge [faceSmall])

/-- C9 counterexample: a poll that finds one well-positioned face sets the
quality label to good positioning; the next poll returns an empty result and
the label is NOT recomputed — it carries over the stale value (while the
count and the detected flag are reset). -/
theorem C9_stale_quality_counterexample :
    (detectFacesUpdate (detectFacesUpdate initView 100 100 (Except.ok [faceLarge]))
        100 100 (Except.ok [])).faceQuality = "✅ Good positioning" ∧
    (detectFacesUpdate (detectFacesUpdate initView 100 100 (Except.ok [faceLarge]))
        100 100 (Except.ok [])).faceDetected = false ∧
    (detectFacesUpdate (detectFacesUpdate initView 100 100 (Except.ok [faceLarge]))
        100 100 (Except.ok [])).facesCount = 0 := by
  refine ⟨?_, rfl, rfl⟩
  norm_num [detectFacesUpdate, classifyQuality, facePercentage, faceLarge, initView]

/-- C9 amended: on every completed poll the face count and the detected flag
are recomputed from that poll's result, but the quality label is recomputed
only when the result is non-empty; on an empty result it retains the previous
value. -/
theorem C9_recompute_per_poll (s : ViewState) (w h : ℚ) (l : List FaceRecord) :
    (detectFacesUpdate s w h (Except.ok l)).facesCount = l.length ∧
    (detectFacesUpdate s w h (Except.ok l)).faceDetected = decide (0 < l.length) ∧
    (l = [] → (detectFacesUpdate s w h (Except.ok l)).faceQuality = s.faceQuality) := by
  refine ⟨rfl, rfl, ?_⟩
  rintro rfl
  rfl

/-- C9 witness: on a concrete empty poll, the count and flag are recomputed
and the quality label is the previous one. -/
theorem C9_recompute_per_poll_witness :
    (detectFacesUpdate initView 100 100 (Except.ok [])).faceQuality
      = initView.faceQuality :=
  (C9_recompute_per_poll initView 100 100 []).2.2 rfl

/-- The state of a healthy session: models loaded, camera attached (stream 0),
interval running, one detection (poll 1) in flight. -/
def streamingState : CompState :=
  runState initState [Event.modelLoadResolve true,
    Event.getUserMediaResolve (Except.ok 0), Event.tick 1]

/-- No step other than a successful model-load resolution touches
`cameraRequested` or `modelsLoaded`. -/
theorem stepPreservesSetupFlags (s : CompState) (e : Event)
    (he : e ≠ Event.modelLoadResolve true) :
    (step s e).1.cameraRequested = s.cameraRequested ∧
    (step s e).1.modelsLoaded = s.modelsLoaded := by
  cases e with
  | modelLoadResolve ok =>
      cases ok
      · exact ⟨rfl, rfl⟩
      · exact absurd rfl he
  | getUserMediaResolve res =>
      cases res with
      | error u => exact ⟨rfl, rfl⟩
      | ok sid =>
          simp only [step]
          split
          · exact ⟨rfl, rfl⟩
          · exact ⟨rfl, rfl⟩
  | tick p =>
      simp only [step]
      split
      · exact ⟨rfl, rfl⟩
      · exact ⟨rfl, rfl⟩
  | detectionComplete p w h res =>
      simp only [step]
      split
      · exact ⟨rfl, rfl⟩
      · exact ⟨rfl, rfl⟩
  | capture enc => exact ⟨rfl, rfl⟩
  | unmount =>
      simp only [step]
      split
      · split
        · exact ⟨rfl, rfl⟩
        · exact ⟨rfl, rfl⟩
      · exact ⟨rfl, rfl⟩

/-- A run containing no successful model-load resolution leaves
`cameraRequested` and `modelsLoaded` as they started. -/
theorem runPreservesSetupFlags (t : List Event) : ∀ s : CompState,
    Event.modelLoadResolve true ∉ t →
    (runState s t).cameraRequested = s.cameraRequested ∧
    (runState s t).modelsLoaded = s.modelsLoaded := by
  induction t with
  | nil => exact fun s _ => ⟨rfl, rfl⟩
  | cons e es ih =>
      intro s ht
      have he : e ≠ Event.modelLoadResolve true := by
        intro hc
        exact ht (hc ▸ List.mem_cons_self e es)
      have hs := stepPreservesSetupFlags s e he
      have hrec := ih (step s e).1 (fun hm => ht (List.mem_cons_of_mem e hm))
      simp only [runState]
      exact ⟨hrec.1.trans hs.1, hrec.2.trans hs.2⟩

/-- No step other than a successful camera resolution touches
`timerEverStarted`. -/
theorem stepPreservesTimer (s : CompState) (e : Event)
    (he : ∀ sid : Nat, e ≠ Event.getUserMediaResolve (Except.ok sid)) :
    (step s e).1.timerEverStarted = s.timerEverStarted := by
  cases e with
  | modelLoadResolve ok =>
      cases ok
      · rfl
      · rfl
  | getUserMediaResolve res =>
      cases res with
      | error u => rfl
      | ok sid => exact absurd rfl (he sid)
  | tick p =>
      simp only [step]
      split
      · rfl
      · rfl
  | detectionComplete p w h res =>
      simp only [step]
      split
      · rfl
      · rfl
  | capture enc => rfl
  | unmount =>
      simp only [step]
      split
      · split
        · rfl
        · rfl
      · rfl

/-- A run containing no successful camera resolution never starts the poll
timer (it stays as it started). -/
theorem runPreservesTimer (t : List Event) : ∀ s : CompState,
    (∀ sid : Nat, Event.getUserMediaResolve (Except.ok sid) ∉ t) →
    (runState s t).timerEverStarted = s.timerEverStarted := by
  induction t with
  | nil => exact fun s _ => rfl
  | cons e es ih =>
      intro s ht
      have he : ∀ sid : Nat, e ≠ Event.getUserMediaResolve (Except.ok sid) := by
        intro sid hc
        exact ht sid (hc ▸ List.mem_cons_self e es)
      have hrec := ih (step s e).1
        (fun sid hm => ht sid (List.mem_cons_of_mem e hm))
      simp only [runState]
      exact hrec.trans (stepPreservesTimer s e he)

/-- A failed model load in the run surfaces the model-load alert. -/
theorem alertOfModelLoadFailure (t : List Event) : ∀ s : CompState,
    Event.modelLoadResolve false ∈ t →
    Output.alerted "Failed to load face detection models. Please refresh the page."
      ∈ runOutputs s t := by
  induction t with
  | nil => intro s h; cases h
  | cons e es ih =>
      intro s h
      simp only [runOutputs, List.mem_append]
      rcases List.mem_cons.mp h with heq | hmem
      · left
        rw [← heq]
        simp [step]
      · right
        exact ih (step s e).1 hmem

/-- A denied camera request in the run surfaces the camera-access alert. -/
theorem alertOfCameraDenied (t : List Event) : ∀ s : CompState,
    Event.getUserMediaResolve (Except.error ()) ∈ t →
    Output.alerted "Please allow camera access to use this app."
      ∈ runOutputs s t := by
  induction t with
  | nil => intro s h; cases h
  | cons e es ih =>
      intro s h
      simp only [runOutputs, List.mem_append]
      rcases List.mem_cons.mp h with heq | hmem
      · left
        rw [← heq]
        simp [step]
      · right
        exact ih (step s e).1 hmem

/-- C5: setup failures never progress to streaming. In every run from mount
in which no model-load resolution succeeds, the camera stream is never
requested and the models stay unloaded, and a failed model load surfaces a
terminal error alert; in every run in which no camera request succeeds, the
poll timer is never started, and a denied camera request surfaces a terminal
error alert. -/
theorem C5_setup_failures_block_progress (t : List Event) :
    ((Event.modelLoadResolve true ∉ t) →
        (runState initState t).cameraRequested = false ∧
        (runState initState t).modelsLoaded = false ∧
        (Event.modelLoadResolve false ∈ t →
          Output.alerted "Failed to load face detection models. Please refresh the page."
            ∈ runOutputs initState t)) ∧
    ((∀ sid : Nat, Event.getUserMediaResolve (Except.ok sid) ∉ t) →
        (runState initState t).timerEverStarted = false ∧
        (Event.getUserMediaResolve (Except.error ()) ∈ t →
          Output.alerted "Please allow camera access to use this app."
            ∈ runOutputs initState t)) := by
  constructor
  · intro hm
    obtain ⟨h1, h2⟩ := runPreservesSetupFlags t initState hm
    exact ⟨h1, h2, fun hf => alertOfModelLoadFailure t initState hf⟩
  · intro hc
    exact ⟨runPreservesTimer t initState hc,
      fun hf => alertOfCameraDenied t initState hf⟩

/-- C5 witness: in the concrete run where model loading fails and the camera
is denied, the camera is never requested and the timer never starts. -/
theorem C5_setup_failures_block_progress_witness :
    (runState initState [Event.modelLoadResolve false,
        Event.getUserMediaResolve (Except.error ())]).cameraRequested = false ∧
    (runState initState [Event.modelLoadResolve false,
        Event.getUserMediaResolve (Except.error ())]).timerEverStarted = false := by
  have h := C5_setup_failures_block_progress
    [Event.modelLoadResolve false, Event.getUserMediaResolve (Except.error ())]
  refine ⟨(h.1 ?_).1, (h.2 ?_).1⟩
  · simp
  · intro sid
    simp

/-- C6: a detection poll whose detection call throws is caught within that
poll — the view state is unchanged and the interval stays active — and a next
scheduled tick still starts a detection. -/
theorem C6_error_poll_survives (s : CompState) (p q : Nat) (w h : ℚ)
    (hA : s.intervalActive = true) (hR : s.videoRefPresent = true) :
    (step s (Event.detectionComplete p w h (Except.error ()))).1.view = s.view ∧
    (step s (Event.detectionComplete p w h (Except.error ()))).1.intervalActive = true ∧
    q ∈ (step (step s (Event.detectionComplete p w h (Except.error ()))).1
          (Event.tick q)).1.pendingDetections := by
  by_cases hp : p ∈ s.pendingDetections <;>
    simp [step, detectFacesUpdate, hp, hA, hR]

/-- C6 witness: in the healthy streaming state with poll 1 in flight, poll 1's
detection throwing still lets the tick for poll 2 start a detection. -/
theorem C6_error_poll_survives_witness :
    2 ∈ (step (step streamingState
          (Event.detectionComplete 1 640 480 (Except.error ()))).1
          (Event.tick 2)).1.pendingDetections :=
  (C6_error_poll_survives streamingState 1 2 640 480 rfl rfl).2.2

/-- C4: evidence against the no-leak part of the teardown claim. First
conjuncts: ordinary teardown does stop the attached stream's tracks, and a
second teardown is a no-op (the idempotence part of the claim holds). Last
conjuncts: when teardown runs while the camera request is still pending
(`CameraStarting`), there is nothing to release yet; when `getUserMedia` then
resolves, the refs are gone, so the acquired stream (id 7) is dropped with its
tracks never stopped — a leaked camera handle. -/
theorem C4_teardown_idempotent_but_leaks :
    (runState initState [Event.modelLoadResolve true,
        Event.getUserMediaResolve (Except.ok 3), Event.unmount]).stoppedStreams = [3] ∧
    runState initState [Event.modelLoadResolve true,
        Event.getUserMediaResolve (Except.ok 3), Event.unmount, Event.unmount]
      = runState initState [Event.modelLoadResolve true,
          Event.getUserMediaResolve (Except.ok 3), Event.unmount] ∧
    (runState initState [Event.modelLoadResolve true, Event.unmount,
        Event.getUserMediaResolve (Except.ok 7)]).acquiredStreams = [7] ∧
    (runState initState [Event.modelLoadResolve true, Event.unmount,
        Event.getUserMediaResolve (Except.ok 7)]).stoppedStreams = [] :=
  ⟨rfl, rfl, rfl, rfl⟩

/-- C10: evidence against the no-overlap claim. When detection latency
exceeds the tick interval, the tick for poll 2 fires while poll 1 is still in
flight and a second detection is started anyway (no skip or coalesce: both
polls are pending). The completions then interleave: poll 2 — the fresher
frame, containing a face — completes first, and the stale empty poll 1
completes last and overwrites it, leaving `faceDetected = false` although the
most recently completed detection saw a face. -/
theorem C10_overlapping_polls :
    (runState streamingState [Event.tick 2]).pendingDetections = [2, 1] ∧
    (runState streamingState [Event.tick 2,
        Event.detectionComplete 2 100 100 (Except.ok [faceLarge]),
        Event.detectionComplete 1 100 100 (Except.ok [])]).view.faceDetected = false ∧
    (detectFacesUpdate streamingState.view 100 100
        (Except.ok [faceLarge])).faceDetected = true :=
  ⟨rfl, rfl, rfl⟩
